import Mathlib

/-!
Shallow embedding of the USP message model of this repository
(`source/core/usp/include/uspmessages.h`) and of the Objective-C binding
declaration `source/bindings/objective-c/public/SPXTranslationSynthesisResult.h`,
with theorems settling the specification claims about them.

Strings (`std::wstring`, `std::string`) are modelled as `String`, the
`std::map<std::wstring, std::wstring>` of translations as an association list
`List (String × String)`, and the 64-bit unsigned `OffsetType`/`DurationType`
as `Nat` reduced modulo `2 ^ 64` at the field boundary.  Each C++ constructor
becomes a `make` function; default member initializers become Lean structure
field defaults, and a compiler-generated default constructor becomes a
`mkDefault` definition.
-/

namespace USP

/-- `OffsetType` is `uint64_t`: a natural number strictly below `2 ^ 64`. -/
def uint64Mod (n : Nat) : Nat := n % 2 ^ 64

/-- Enum `RecognitionStatus` from `uspmessages.h`. -/
inductive RecognitionStatus : Type where
  | Success
  | NoMatch
  | InitialSilenceTimeout
  | InitialBabbleTimeout
  | Error
  | EndOfDictation
  | TooManyRequests
  | BadRequest
  | Forbidden
  | ServiceUnavailable
  | InvalidMessage
deriving DecidableEq, Repr

/-- Enum `TranslationStatus` from `uspmessages.h`. -/
inductive TranslationStatus : Type where
  | Success
  | Error
  | InvalidMessage
deriving DecidableEq, Repr

/-- Enum `ErrorCode` from `uspmessages.h` (its first enumerator has value 1). -/
inductive ErrorCode : Type where
  | AuthenticationError
  | BadRequest
  | TooManyRequests
  | Forbidden
  | ConnectionError
  | ServiceUnavailable
  | ServiceError
  | RuntimeError
deriving DecidableEq, Repr

/-- The underlying integer of each `ErrorCode` enumerator (`AuthenticationError = 1`). -/
def ErrorCode.toInt : ErrorCode → Int
  | .AuthenticationError => 1
  | .BadRequest => 2
  | .TooManyRequests => 3
  | .Forbidden => 4
  | .ConnectionError => 5
  | .ServiceUnavailable => 6
  | .ServiceError => 7
  | .RuntimeError => 8

/-- All enumerators of the closed enum `ErrorCode`, in declaration order. -/
def ErrorCode.all : List ErrorCode :=
  [.AuthenticationError, .BadRequest, .TooManyRequests, .Forbidden,
   .ConnectionError, .ServiceUnavailable, .ServiceError, .RuntimeError]

/-- Source-level enumerator name of an `ErrorCode` value. -/
def ErrorCode.name : ErrorCode → String
  | .AuthenticationError => "AuthenticationError"
  | .BadRequest => "BadRequest"
  | .TooManyRequests => "TooManyRequests"
  | .Forbidden => "Forbidden"
  | .ConnectionError => "ConnectionError"
  | .ServiceUnavailable => "ServiceUnavailable"
  | .ServiceError => "ServiceError"
  | .RuntimeError => "RuntimeError"

/-- The enumerator names of `ErrorCode`. -/
def errorCodeNames : List String := ErrorCode.all.map ErrorCode.name

/-- Source-level enumerator name of a `RecognitionStatus` value. -/
def RecognitionStatus.name : RecognitionStatus → String
  | .Success => "Success"
  | .NoMatch => "NoMatch"
  | .InitialSilenceTimeout => "InitialSilenceTimeout"
  | .InitialBabbleTimeout => "InitialBabbleTimeout"
  | .Error => "Error"
  | .EndOfDictation => "EndOfDictation"
  | .TooManyRequests => "TooManyRequests"
  | .BadRequest => "BadRequest"
  | .Forbidden => "Forbidden"
  | .ServiceUnavailable => "ServiceUnavailable"
  | .InvalidMessage => "InvalidMessage"

/-- All enumerators of `RecognitionStatus`, in declaration order. -/
def RecognitionStatus.all : List RecognitionStatus :=
  [.Success, .NoMatch, .InitialSilenceTimeout, .InitialBabbleTimeout, .Error,
   .EndOfDictation, .TooManyRequests, .BadRequest, .Forbidden,
   .ServiceUnavailable, .InvalidMessage]

/-- The enumerator names of `RecognitionStatus`. -/
def recognitionStatusNames : List String := RecognitionStatus.all.map RecognitionStatus.name

/-- Source-level enumerator name of a `TranslationStatus` value. -/
def TranslationStatus.name : TranslationStatus → String
  | .Success => "Success"
  | .Error => "Error"
  | .InvalidMessage => "InvalidMessage"

/-- All enumerators of `TranslationStatus`, in declaration order. -/
def TranslationStatus.all : List TranslationStatus := [.Success, .Error, .InvalidMessage]

/-- The enumerator names of `TranslationStatus`. -/
def translationStatusNames : List String := TranslationStatus.all.map TranslationStatus.name

/-- Struct `JsonMsg`: base of every text-bodied message; `json` holds the raw
decoded text payload.  Its protected constructor moves the content in. -/
structure JsonMsg : Type where
  json : String := ""
deriving DecidableEq, Repr

/-- The protected `JsonMsg(std::wstring&& content)` constructor. -/
def JsonMsg.make (content : String) : JsonMsg := { json := content }

/-- Struct `SpeechStartDetectedMsg` (`speech.startDetected`). -/
structure SpeechStartDetectedMsg extends JsonMsg where
  offset : Nat := 0
deriving DecidableEq, Repr

/-- Constructor `SpeechStartDetectedMsg(content, offset)`. -/
def SpeechStartDetectedMsg.make (content : String) (offset : Nat) : SpeechStartDetectedMsg :=
  { toJsonMsg := JsonMsg.make content, offset := uint64Mod offset }

/-- Struct `SpeechEndDetectedMsg` (`speech.endDetected`). -/
structure SpeechEndDetectedMsg extends JsonMsg where
  offset : Nat := 0
deriving DecidableEq, Repr

/-- Constructor `SpeechEndDetectedMsg(content, offset)`. -/
def SpeechEndDetectedMsg.make (content : String) (offset : Nat) : SpeechEndDetectedMsg :=
  { toJsonMsg := JsonMsg.make content, offset := uint64Mod offset }

/-- Struct `TurnStartMsg` (`turn.start`). -/
structure TurnStartMsg extends JsonMsg where
  contextServiceTag : String
deriving DecidableEq, Repr

/-- Constructor `TurnStartMsg(content, tag)`. -/
def TurnStartMsg.make (content : String) (tag : String) : TurnStartMsg :=
  { toJsonMsg := JsonMsg.make content, contextServiceTag := tag }

/-- Struct `TurnEndMsg` (`turn.end`); its body is empty. -/
structure TurnEndMsg extends JsonMsg
deriving DecidableEq, Repr

/-- Constructor `TurnEndMsg()`, which passes an empty `std::wstring()` to `JsonMsg`. -/
def TurnEndMsg.make : TurnEndMsg := { toJsonMsg := JsonMsg.make "" }

/-- Struct `SpeechMsg`: common base of the speech messages. -/
structure SpeechMsg extends JsonMsg where
  offset : Nat := 0
  duration : Nat := 0
deriving DecidableEq, Repr

/-- Constructor `SpeechMsg(content, offset, duration)`. -/
def SpeechMsg.make (content : String) (offset duration : Nat) : SpeechMsg :=
  { toJsonMsg := JsonMsg.make content,
    offset := uint64Mod offset, duration := uint64Mod duration }

/-- Struct `SpeechHypothesisMsg` (`speech.hypothesis`). -/
structure SpeechHypothesisMsg extends SpeechMsg where
  text : String
deriving DecidableEq, Repr

/-- Constructor `SpeechHypothesisMsg(content, offset, duration, text)`. -/
def SpeechHypothesisMsg.make (content : String) (offset duration : Nat) (text : String) :
    SpeechHypothesisMsg :=
  { toSpeechMsg := SpeechMsg.make content offset duration, text := text }

/-- Struct `SpeechFragmentMsg` (`speech.fragment`). -/
structure SpeechFragmentMsg extends SpeechMsg where
  text : String
deriving DecidableEq, Repr

/-- Constructor `SpeechFragmentMsg(content, offset, duration, text)`. -/
def SpeechFragmentMsg.make (content : String) (offset duration : Nat) (text : String) :
    SpeechFragmentMsg :=
  { toSpeechMsg := SpeechMsg.make content offset duration, text := text }

/-- Struct `SpeechPhraseMsg` (`speech.phrase`); member initializers default
`recognitionStatus` to `Error` and `displayText` to the empty string. -/
structure SpeechPhraseMsg extends SpeechMsg where
  recognitionStatus : RecognitionStatus := RecognitionStatus.Error
  displayText : String := ""
deriving DecidableEq, Repr

/-- Constructor `SpeechPhraseMsg(content, offset, duration, status, text)`. -/
def SpeechPhraseMsg.make (content : String) (offset duration : Nat)
    (status : RecognitionStatus) (text : String) : SpeechPhraseMsg :=
  { toSpeechMsg := SpeechMsg.make content offset duration,
    recognitionStatus := status, displayText := text }

/-- The compiler-generated `SpeechPhraseMsg() = default` constructor: every
field takes its member-initializer default. -/
def SpeechPhraseMsg.mkDefault : SpeechPhraseMsg := {}

/-- Struct `TranslationResult`: `translationStatus` defaults to `Error` by its
member initializer; `translations` is the targetLanguage → translationText map. -/
structure TranslationResult : Type where
  translationStatus : TranslationStatus := TranslationStatus.Error
  failureReason : String := ""
  translations : List (String × String) := []
deriving DecidableEq, Repr

/-- A default-constructed `TranslationResult`: all member-initializer defaults. -/
def TranslationResult.mkDefault : TranslationResult := {}

/-- Struct `TranslationHypothesisMsg` (`translation.hypothesis`). -/
structure TranslationHypothesisMsg extends SpeechHypothesisMsg where
  translation : TranslationResult
deriving DecidableEq, Repr

/-- Constructor `TranslationHypothesisMsg(content, offset, duration, text, translation)`. -/
def TranslationHypothesisMsg.make (content : String) (offset duration : Nat)
    (text : String) (translation : TranslationResult) : TranslationHypothesisMsg :=
  { toSpeechHypothesisMsg := SpeechHypothesisMsg.make content offset duration text,
    translation := translation }

/-- Struct `TranslationPhraseMsg` (`translation.phrase`); it adds its own
`recognitionStatus` field, with no member-initializer default, and its only
constructor requires the status argument. -/
structure TranslationPhraseMsg extends TranslationHypothesisMsg where
  recognitionStatus : RecognitionStatus
deriving DecidableEq, Repr

/-- Constructor
`TranslationPhraseMsg(content, offset, duration, text, translation, status)`. -/
def TranslationPhraseMsg.make (content : String) (offset duration : Nat)
    (text : String) (translation : TranslationResult) (status : RecognitionStatus) :
    TranslationPhraseMsg :=
  { toTranslationHypothesisMsg :=
      TranslationHypothesisMsg.make content offset duration text translation,
    recognitionStatus := status }

/-- Struct `AudioOutputChunkMsg`: binary-bodied, it does not derive from
`JsonMsg`.  The `const uint8_t*` buffer is modelled as an optional byte list
(`none` for `nullptr`, the member-initializer default). -/
structure AudioOutputChunkMsg : Type where
  streamId : Int := -1
  audioBuffer : Option (List Nat) := none
  audioLength : Nat := 0
deriving DecidableEq, Repr

/-- Struct `UserMsg`: binary-bodied message for a user-defined path; it does
not derive from `JsonMsg`. -/
structure UserMsg : Type where
  path : String
  contentType : String
  buffer : Option (List Nat)
  size : Nat
deriving DecidableEq, Repr

/-- The discriminated union of every message kind exposed by `uspmessages.h`. -/
inductive Msg : Type where
  | turnStart : TurnStartMsg → Msg
  | turnEnd : TurnEndMsg → Msg
  | speechStartDetected : SpeechStartDetectedMsg → Msg
  | speechEndDetected : SpeechEndDetectedMsg → Msg
  | speechHypothesis : SpeechHypothesisMsg → Msg
  | speechFragment : SpeechFragmentMsg → Msg
  | speechPhrase : SpeechPhraseMsg → Msg
  | translationHypothesis : TranslationHypothesisMsg → Msg
  | translationPhrase : TranslationPhraseMsg → Msg
  | audioOutputChunk : AudioOutputChunkMsg → Msg
  | userMessage : UserMsg → Msg
deriving DecidableEq, Repr

/-- The raw decoded text payload a message carries through its `JsonMsg` base:
`some` of the `json` field for the kinds deriving from `JsonMsg`, `none` for
the binary-bodied kinds (`AudioOutputChunkMsg`, `UserMsg`), which have no such
base and no `json` field. -/
def Msg.textPayload : Msg → Option String
  | .turnStart m => some m.json
  | .turnEnd m => some m.json
  | .speechStartDetected m => some m.json
  | .speechEndDetected m => some m.json
  | .speechHypothesis m => some m.json
  | .speechFragment m => some m.json
  | .speechPhrase m => some m.json
  | .translationHypothesis m => some m.json
  | .translationPhrase m => some m.json
  | .audioOutputChunk _ => none
  | .userMessage _ => none

/-- Modelled from the spec: the wire-data validation pass of the Message Model
for `TranslationResult` is not among the source files (only the struct
declaration is); per §4.1 "validation rejects construction when required
invariants (§3) are violated" and the §3 invariant "mapping non-empty only
when status = Success", it accepts a decoded `TranslationResult` exactly when
the mapping is empty or the status is `Success`. -/
def TranslationResult.validate (r : TranslationResult) : Option TranslationResult :=
  if r.translationStatus = TranslationStatus.Success ∨ r.translations = [] then
    some r
  else
    none

/-- A concrete accepted `TranslationResult`: status `Success`, one entry. -/
def sampleAcceptedResult : TranslationResult :=
  { translationStatus := TranslationStatus.Success, failureReason := "",
    translations := [("de", "hallo")] }

/-- The spec's `Transient` error class, by enumerator name, exactly as the
spec lists it (§4.4). -/
def specTransientClass : List String :=
  ["ConnectionError", "ServiceUnavailable", "TooManyRequests"]

/-- The spec's `Permanent` error class, by enumerator name, exactly as the
spec lists it (§4.4). -/
def specPermanentClass : List String :=
  ["AuthenticationError", "BadRequest", "Forbidden", "RuntimeError",
   "ServiceError", "InvalidMessage"]

end USP

namespace Bindings

/-- Attributes an Objective-C `@property` declaration can carry in
`SPXTranslationSynthesisResult.h`. -/
inductive PropertyAttr : Type where
  | readonly
  | copySem
  | nullable
deriving DecidableEq, Repr

/-- One Objective-C `@property` declaration: its name and attribute list. -/
structure PropertyDecl : Type where
  name : String
  attrs : List PropertyAttr
deriving DecidableEq, Repr

/-- A declared property has a setter (is caller-writable) exactly when it is
not marked `readonly`. -/
def PropertyDecl.hasSetter (p : PropertyDecl) : Bool :=
  !(p.attrs.contains PropertyAttr.readonly)

/-- The `@property` declarations of `@interface SPXTranslationSynthesisResult`,
in source order: `@property (readonly) SPXResultReason reason;` and
`@property (copy, readonly, nullable) NSData *audio;`. -/
def SPXTranslationSynthesisResult.propertyDecls : List PropertyDecl :=
  [{ name := "reason", attrs := [PropertyAttr.readonly] },
   { name := "audio",
     attrs := [PropertyAttr.copySem, PropertyAttr.readonly, PropertyAttr.nullable] }]

/-- The caller-writable properties of an interface: those with a setter. -/
def writableProperties (decls : List PropertyDecl) : List PropertyDecl :=
  decls.filter PropertyDecl.hasSetter

/-- The state a dispatched `SPXTranslationSynthesisResult` exposes: the reason
code and the (optional) synthesized audio bytes. -/
structure SPXTranslationSynthesisResult : Type where
  reason : Int
  audioBytes : Option (List Nat)
deriving DecidableEq, Repr

/-- A caller's attempt to assign through a property of the interface: it
changes the dispatched result only if the named property has a setter;
otherwise the result is returned unchanged. -/
def callerAssign (decls : List PropertyDecl) (propName : String)
    (upd : SPXTranslationSynthesisResult → SPXTranslationSynthesisResult)
    (st : SPXTranslationSynthesisResult) : SPXTranslationSynthesisResult :=
  match decls.find? (fun p => p.name = propName) with
  | some p => if p.hasSetter then upd st else st
  | none => st

end Bindings

open USP Bindings

/-- Helper: values accepted by the spec-modelled `TranslationResult.validate`
are returned unchanged and satisfy "status is Success or the mapping is empty". -/
theorem validate_characterisation {r r' : TranslationResult}
    (h : TranslationResult.validate r = some r') :
    r' = r ∧ (r'.translationStatus = TranslationStatus.Success ∨ r'.translations = []) := by
  unfold TranslationResult.validate at h
  split at h
  · cases h
    exact ⟨rfl, by assumption⟩
  · cases h

/-- Claim C1: for every `TranslationResult` accepted by wire-data validation
(including when embedded in a `TranslationPhraseMsg`), the translations
mapping is non-empty only when `translationStatus = Success`; in particular a
translation phrase whose translation status is `Error` has an empty mapping. -/
theorem claim_C1 (r r' : TranslationResult)
    (h : TranslationResult.validate r = some r') :
    (r'.translations ≠ [] → r'.translationStatus = TranslationStatus.Success) ∧
    (∀ (content text : String) (offset duration : Nat) (s : RecognitionStatus),
      (TranslationPhraseMsg.make content offset duration text r' s).translation.translationStatus =
          TranslationStatus.Error →
        (TranslationPhraseMsg.make content offset duration text r' s).translation.translations = []) := by
  obtain ⟨-, hval⟩ := validate_characterisation h
  constructor
  · intro hne
    rcases hval with hs | he
    · exact hs
    · exact absurd he hne
  · intro content text offset duration s herr
    have hts : (TranslationPhraseMsg.make content offset duration text r' s).translation = r' := rfl
    rw [hts] at herr ⊢
    rcases hval with hs | he
    · rw [hs] at herr
      cases herr
    · exact he

/-- Witness for C1 at a concrete accepted `TranslationResult`. -/
theorem claim_C1_witness :
    TranslationResult.validate sampleAcceptedResult = some sampleAcceptedResult ∧
    ((sampleAcceptedResult.translations ≠ [] →
        sampleAcceptedResult.translationStatus = TranslationStatus.Success) ∧
      (∀ (content text : String) (offset duration : Nat) (s : RecognitionStatus),
        (TranslationPhraseMsg.make content offset duration text
            sampleAcceptedResult s).translation.translationStatus =
            TranslationStatus.Error →
          (TranslationPhraseMsg.make content offset duration text
            sampleAcceptedResult s).translation.translations = [])) :=
  ⟨by decide, claim_C1 sampleAcceptedResult sampleAcceptedResult (by decide)⟩

/-- Claim C2: a default `TranslationResult` status is `Error` and never
`Success`, and every constructed `TranslationPhraseMsg` carries exactly the
status supplied to its constructor (the constructor requires one, so the
status is never silently upgraded to `Success`). -/
theorem claim_C2 :
    TranslationResult.mkDefault.translationStatus = TranslationStatus.Error ∧
    (TranslationResult.mkDefault.translationStatus == TranslationStatus.Success) = false ∧
    (∀ (content text : String) (offset duration : Nat) (r : TranslationResult)
        (s : RecognitionStatus),
      (TranslationPhraseMsg.make content offset duration text r s).recognitionStatus = s) :=
  ⟨rfl, by decide, fun _ _ _ _ _ _ => rfl⟩

/-- Counterexample for C3 as stated: the spec's `Permanent` class lists
`InvalidMessage`, but `InvalidMessage` is not an enumerator of `ErrorCode`. -/
theorem claim_C3_counterexample :
    specPermanentClass.contains "InvalidMessage" = true ∧
    errorCodeNames.contains "InvalidMessage" = false := by decide

/-- Claim C3 (amended): the `Transient` and `Permanent` classes classify every
`ErrorCode` enumerator, each into exactly one class, and every listed
classification value except `InvalidMessage` is a member of `ErrorCode`;
`InvalidMessage` is instead an enumerator of `RecognitionStatus` and
`TranslationStatus`. -/
theorem claim_C3 :
    ErrorCode.all.all (fun e =>
        specTransientClass.contains e.name ^^ specPermanentClass.contains e.name) = true ∧
    ((specTransientClass ++ specPermanentClass).filter
        (fun n => n != "InvalidMessage")).all (fun n => errorCodeNames.contains n) = true ∧
    recognitionStatusNames.contains "InvalidMessage" = true ∧
    translationStatusNames.contains "InvalidMessage" = true := by decide

/-- Claim C4: for every content, offset and duration, constructing a
`SpeechPhraseMsg` with status `Success` and empty display text succeeds and
yields exactly status `Success` with empty `displayText`. -/
theorem claim_C4 (content : String) (offset duration : Nat) :
    (SpeechPhraseMsg.make content offset duration RecognitionStatus.Success "").recognitionStatus =
        RecognitionStatus.Success ∧
    (SpeechPhraseMsg.make content offset duration RecognitionStatus.Success "").displayText = "" :=
  ⟨rfl, rfl⟩

/-- Claim C5: a constructed `TranslationPhraseMsg` stores the supplied status
in its own `recognitionStatus` field, and the embedded translation payload is
kept intact (its `translationStatus` unchanged), whatever it is. -/
theorem claim_C5 (content text : String) (offset duration : Nat)
    (r : TranslationResult) (s : RecognitionStatus) :
    (TranslationPhraseMsg.make content offset duration text r s).recognitionStatus = s ∧
    (TranslationPhraseMsg.make content offset duration text r s).translation = r ∧
    (TranslationPhraseMsg.make content offset duration text r s).translation.translationStatus =
      r.translationStatus :=
  ⟨rfl, rfl, rfl⟩

/-- Claim C6: every text-bodied message kind carries the decoded content it
was constructed with as its `JsonMsg` text payload (`TurnEndMsg` is
constructed with the empty content), while the binary-bodied kinds
(`AudioOutputChunkMsg`, `UserMsg`) carry no text payload at all. -/
theorem claim_C6 :
    (∀ (content tag : String),
      (Msg.turnStart (TurnStartMsg.make content tag)).textPayload = some content) ∧
    ((Msg.turnEnd TurnEndMsg.make).textPayload = some "") ∧
    (∀ (content : String) (offset : Nat),
      (Msg.speechStartDetected (SpeechStartDetectedMsg.make content offset)).textPayload =
        some content) ∧
    (∀ (content : String) (offset : Nat),
      (Msg.speechEndDetected (SpeechEndDetectedMsg.make content offset)).textPayload =
        some content) ∧
    (∀ (content text : String) (offset duration : Nat),
      (Msg.speechHypothesis (SpeechHypothesisMsg.make content offset duration text)).textPayload =
        some content) ∧
    (∀ (content text : String) (offset duration : Nat),
      (Msg.speechFragment (SpeechFragmentMsg.make content offset duration text)).textPayload =
        some content) ∧
    (∀ (content text : String) (offset duration : Nat) (s : RecognitionStatus),
      (Msg.speechPhrase (SpeechPhraseMsg.make content offset duration s text)).textPayload =
        some content) ∧
    (∀ (content text : String) (offset duration : Nat) (r : TranslationResult),
      (Msg.translationHypothesis
        (TranslationHypothesisMsg.make content offset duration text r)).textPayload =
        some content) ∧
    (∀ (content text : String) (offset duration : Nat) (r : TranslationResult)
        (s : RecognitionStatus),
      (Msg.translationPhrase
        (TranslationPhraseMsg.make content offset duration text r s)).textPayload =
        some content) ∧
    (∀ a : AudioOutputChunkMsg, (Msg.audioOutputChunk a).textPayload = none) ∧
    (∀ u : UserMsg, (Msg.userMessage u).textPayload = none) :=
  ⟨fun _ _ => rfl, rfl, fun _ _ => rfl, fun _ _ => rfl, fun _ _ _ _ => rfl,
   fun _ _ _ _ => rfl, fun _ _ _ _ _ => rfl, fun _ _ _ _ _ => rfl,
   fun _ _ _ _ _ _ => rfl, fun _ => rfl, fun _ => rfl⟩

/-- Claim C7: durations are 64-bit unsigned tick counts: the stored duration
of any constructed `SpeechHypothesisMsg` or `SpeechFragmentMsg` is
non-negative and strictly below `2 ^ 64`. -/
theorem claim_C7 (content text : String) (offset duration : Nat) :
    (SpeechHypothesisMsg.make content offset duration text).duration < 2 ^ 64 ∧
    (0 : Int) ≤ ((SpeechHypothesisMsg.make content offset duration text).duration : Int) ∧
    (SpeechFragmentMsg.make content offset duration text).duration < 2 ^ 64 ∧
    (0 : Int) ≤ ((SpeechFragmentMsg.make content offset duration text).duration : Int) := by
  refine ⟨Nat.mod_lt _ (by norm_num), Int.natCast_nonneg _,
    Nat.mod_lt _ (by norm_num), Int.natCast_nonneg _⟩

/-- Claim C8: the `TurnEndMsg` constructor produces an empty `json` body. -/
theorem claim_C8 : TurnEndMsg.make.json = "" := rfl

/-- Claim C9: at the Objective-C binding boundary, a dispatched translation
synthesis result exposes exactly the `reason` and `audio` properties, both
`readonly` (no setter, so no writable property exists), the audio payload has
`copy` semantics, and any caller assignment through the interface leaves the
dispatched result unchanged. -/
theorem claim_C9 :
    (SPXTranslationSynthesisResult.propertyDecls.map PropertyDecl.name = ["reason", "audio"]) ∧
    SPXTranslationSynthesisResult.propertyDecls.all (fun p => !p.hasSetter) = true ∧
    writableProperties SPXTranslationSynthesisResult.propertyDecls = [] ∧
    SPXTranslationSynthesisResult.propertyDecls.any
      (fun p => p.name == "audio" && p.attrs.contains PropertyAttr.copySem) = true ∧
    (∀ (propName : String) (upd : SPXTranslationSynthesisResult → SPXTranslationSynthesisResult)
        (st : SPXTranslationSynthesisResult),
      callerAssign SPXTranslationSynthesisResult.propertyDecls propName upd st = st) := by
  refine ⟨rfl, by decide, rfl, by decide, ?_⟩
  intro propName upd st
  unfold callerAssign
  rcases h : SPXTranslationSynthesisResult.propertyDecls.find? (fun p => p.name = propName) with - | p
  · rw [h]
  · rw [h]
    have hmem := List.mem_of_find?_eq_some h
    simp only [SPXTranslationSynthesisResult.propertyDecls, List.mem_cons,
      List.not_mem_nil, or_false] at hmem
    rcases hmem with rfl | rfl <;> rfl

/-- Claim C10: a default-constructed `SpeechPhraseMsg` has
`recognitionStatus = Error` (never `Success`) and empty `displayText`. -/
theorem claim_C10 :
    SpeechPhraseMsg.mkDefault.recognitionStatus = RecognitionStatus.Error ∧
    SpeechPhraseMsg.mkDefault.displayText = "" ∧
    (SpeechPhraseMsg.mkDefault.recognitionStatus == RecognitionStatus.Success) = false :=
  ⟨rfl, rfl, by decide⟩
